import Mathlib

/-!
Verification of the pyrce endpoint layer (`src/pyrce/interface.py`): a shallow
embedding of the Publisher, Subscriber and Service interface classes, the
request/response correlation table, and the ROS synchronous service bridge.

Modelling conventions:
* Payloads, tags and type descriptors are opaque strings.
* Python dictionaries become association lists (`dget`/`dinsert`/`dpop`
  mirror `d[k]`, `d[k] = v` and `d.pop(k, None)`).
* A method that can raise returns `Except PyErr ...`; `Except.error e` means
  the Python exception `e` propagates out of the method.  Where the raise
  statement precedes any mutation in the source, the erroring branch is placed
  before any state update, so `Except.error` also certifies that no state
  change and no send happened.
* Side effects on the external Connection (`sendMessage`,
  `unregisterInterface`) and invocations of user callbacks are recorded as an
  event trace (`Ev`).
* The fresh correlation id drawn by `uuid4().hex` is passed in as an explicit
  `uid` argument (an oracle for the randomness).
-/

/-- Python exceptions that the embedded methods can raise.
`typeError` models `TypeError`, `attributeError` models `AttributeError`
(access to an attribute that was never assigned), `interrupted` models the
`Exception('Interrupted.')` raised by `ROSService._rosCB`. -/
inductive PyErr where
  | typeError
  | attributeError
  | interrupted
deriving DecidableEq, Repr

/-- Observable effects of an endpoint method: an outbound
`Connection.sendMessage(tag, type, payload, correlationId)`, an invocation of
a stored user callback with a payload, or a
`Connection.unregisterInterface(tag, endpoint)`. -/
inductive Ev where
  | sent (tag ty payload corrId : String)
  | invoked (cb : Nat) (payload : String)
  | unregistered (tag : String)
deriving DecidableEq, Repr

/-- A Python value in a callback position: `None`, a function (identified by a
tag, always truthy and callable), or some other object that is not callable,
with its own truthiness. -/
inductive PyCb where
  | pynone
  | fn (id : Nat)
  | obj (truthy : Bool)
deriving DecidableEq, Repr

/-- Python truthiness of a callback-position value (`if not cb:` tests this):
`None` is falsy, a function is truthy, another object has its own truth
value. -/
def pyTruthy : PyCb → Bool
  | .pynone => false
  | .fn _ => true
  | .obj t => t

/-- Python `callable(cb)`: functions are callable, `None` and the other
modelled objects are not. -/
def pyCallable : PyCb → Bool
  | .fn _ => true
  | .pynone => false
  | .obj _ => false

/-- Dictionary lookup `d.get(k)` on an association list. -/
def dget (l : List (String × α)) (k : String) : Option α :=
  match l with
  | [] => none
  | (k₂, v) :: t => if k₂ = k then some v else dget t k

/-- Dictionary update `d[k] = v`: overwrite the binding of `k` if present,
otherwise append a new binding. -/
def dinsert (l : List (String × α)) (k : String) (v : α) : List (String × α) :=
  match l with
  | [] => [(k, v)]
  | (k₂, v₂) :: t => if k₂ = k then (k, v) :: t else (k₂, v₂) :: dinsert t k v

/-- Dictionary `d.pop(k, None)`: the removed value (or `none`) together with
the remaining dictionary. -/
def dpop (l : List (String × α)) (k : String) : Option α × List (String × α) :=
  match l with
  | [] => (none, [])
  | (k₂, v) :: t =>
      if k₂ = k then (some v, t)
      else
        let r := dpop t k
        (r.1, (k₂, v) :: r.2)

/-! ## `_Publisher` -/

/-- State of a `_Publisher` instance: `self._iTag` and `self._msgType`
(the `self._conn` reference is implicit; sends are traced as events). -/
structure PublisherState where
  iTag : String
  msgType : String
deriving DecidableEq, Repr

/-- `_Publisher.publish(msg)`:
`self._conn.sendMessage(self._iTag, self._msgType, msg, 'nil')` — one send
with the literal string `'nil'` as the no-correlation sentinel, no state
change, no return value. -/
def Publisher.publish (st : PublisherState) (msg : String) :
    PublisherState × List Ev :=
  (st, [Ev.sent st.iTag st.msgType msg "nil"])

/-! ## `_Subscriber` -/

/-- State of a `_Subscriber` instance: `self._iTag`, `self._msgType` and the
user callback `self._cb` (identified by its tag). -/
structure SubscriberState where
  iTag : String
  msgType : String
  cb : Nat
deriving DecidableEq, Repr

/-- `_Subscriber.callback(msgType, msg, _)`:
raise `TypeError('Received unexpected message type.')` when `msgType` differs
from `self._msgType`, otherwise invoke `self._cb(msg)`. -/
def Subscriber.callback (st : SubscriberState) (msgType msg _corrId : String) :
    Except PyErr (SubscriberState × List Ev) :=
  if !(msgType == st.msgType) then
    Except.error PyErr.typeError
  else
    Except.ok (st, [Ev.invoked st.cb msg])

/-- Modelled from the spec: `Connection.unregisterInterface(tag, endpoint)`.
The Connection class itself is not under src/ (the spec lists it as an
external collaborator owning a registry keyed by tag); per the spec it removes
the registration for `tag`, and unsubscription "must not fault" when called
twice or when the tag is no longer registered, so removal of an absent tag
returns normally. -/
def Connection.unregisterInterface (registry : List (String × Nat))
    (iTag : String) : Except PyErr (List (String × Nat)) :=
  Except.ok (dpop registry iTag).2

/-- `_Subscriber.unsubscribe()`:
`self._conn.unregisterInterface(self._iTag, self)`. -/
def Subscriber.unsubscribe (registry : List (String × Nat))
    (st : SubscriberState) : Except PyErr (List (String × Nat)) :=
  Connection.unregisterInterface registry st.iTag

/-! ## `_Service` / `Service` -/

/-- State of a `Service` instance.  `_Service.__init__` assigns `self._iTag`,
`self._srvType` and `self._responses = {}`; `Service.__init__` additionally
assigns the default callback `self._cb`.  The attribute `self._msgType`, read
by `_Service.callback`, is never assigned anywhere in the `_Service`
hierarchy, so it is carried as an `Option` that stays `none`; reading it in
that case raises `AttributeError`. -/
structure ServiceState where
  iTag : String
  srvType : String
  msgTypeAttr : Option String
  cbDefault : PyCb
  responses : List (String × PyCb)
deriving DecidableEq, Repr

/-- `Service.__init__(conn, iTag, srvType, cb)`: stores the identity, the
default callback, and an empty pending table; no statement assigns
`_msgType`. -/
def Service.init (iTag srvType : String) (cb : PyCb) : ServiceState :=
  { iTag := iTag, srvType := srvType, msgTypeAttr := none,
    cbDefault := cb, responses := [] }

/-- `Service.call(msg, cb=None)`: fall back to `self._cb` when `cb` is falsy;
raise `TypeError('Callback has to be callable.')` when the selected callback
is not callable (before any uid is drawn, any table update or any send);
otherwise store a `Deferred` wrapping the callback under the fresh uid and
send the request tagged with that uid. -/
def Service.call (st : ServiceState) (msg : String) (cb : PyCb)
    (uid : String) : Except PyErr (ServiceState × List Ev) :=
  let sel := if !(pyTruthy cb) then st.cbDefault else cb
  if !(pyCallable sel) then
    Except.error PyErr.typeError
  else
    Except.ok ({ st with responses := dinsert st.responses uid sel },
      [Ev.sent st.iTag st.srvType msg uid])

/-- `_Service.callback(msgType, msg, msgID)` as inherited by `Service`.  The
first statement reads `self._msgType`; since no constructor or method of the
hierarchy ever assigns that attribute, the read raises `AttributeError` before
the type comparison, the `pop` and the deferred invocation.  The remaining
branches embed the rest of the source: raise `TypeError` on a type mismatch,
else `self._responses.pop(msgID, None)` and fire the popped deferred (which
invokes its wrapped callback with `msg`) when one was found. -/
def Service.callback (st : ServiceState) (msgType msg msgID : String) :
    Except PyErr (ServiceState × List Ev) :=
  match st.msgTypeAttr with
  | none => Except.error PyErr.attributeError
  | some mt =>
      if !(msgType == mt) then
        Except.error PyErr.typeError
      else
        let r := dpop st.responses msgID
        match r.1 with
        | some cb =>
            Except.ok ({ st with responses := r.2 },
              match cb with
              | .fn i => [Ev.invoked i msg]
              | _ => [])
        | none => Except.ok ({ st with responses := r.2 }, [])

/-! ## `ROSService` (the synchronous bridge) -/

/-- State of a `ROSService` instance.  On top of the `_Service` fields it has
`self._pending` (uid to already-arrived reply buffer, filled by `_callback`)
and, for each in-flight `_rosCB` invocation, the `threading.Event` that call
is blocked on (keyed here by the call's uid; `true` means the event was set).
`responses` maps each uid to the pending `Deferred` whose callback chain is
`(self._callback, uid, event)`.  As in `ServiceState`, the attribute
`self._msgType` read by the inherited `_Service.callback` is never assigned,
so `msgTypeAttr` stays `none`. -/
structure ROSServiceState where
  iTag : String
  srvType : String
  msgTypeAttr : Option String
  responses : List (String × Unit)
  pending : List (String × String)
  events : List (String × Bool)
deriving DecidableEq, Repr

/-- `ROSService.__init__(conn, iTag, srvType, addr)` immediately runs
`super(ROSService, self).__init__(conn, iTag, srvType, None)`, but
`_Service.__init__` accepts only `(conn, iTag, srvType)`: the extra `None`
argument makes construction raise `TypeError` before any field is assigned. -/
def ROSService.construct (_iTag _srvType _addr : String) :
    Except PyErr ROSServiceState :=
  Except.error PyErr.typeError

/-- The instance state the `ROSService` method bodies are written against
(empty tables, `_msgType` unassigned); used to examine those methods
independently of the constructor-arity slip recorded in
`ROSService.construct`. -/
def ROSService.initState (iTag srvType : String) : ROSServiceState :=
  { iTag := iTag, srvType := srvType, msgTypeAttr := none,
    responses := [], pending := [], events := [] }

/-- First half of `ROSService._rosCB(req)`, up to and including
`event.wait()`: create a fresh `Event` (unset), draw `uid`, register a
`Deferred` wired to `(self._callback, uid, event)` in `self._responses`, send
the request buffer downstream tagged with `uid`, then block on the event. -/
def ROSService.rosCBStart (st : ROSServiceState) (req uid : String) :
    ROSServiceState × List Ev :=
  ({ st with responses := dinsert st.responses uid (),
             events := dinsert st.events uid false },
   [Ev.sent st.iTag st.srvType req uid])

/-- Whether the waiter of call `uid` has been woken: `event.wait()` returns
exactly when the call's `Event` has been set. -/
def ROSService.eventSet (st : ROSServiceState) (uid : String) : Bool :=
  (dget st.events uid).getD false

/-- Second half of `ROSService._rosCB`, executed after `event.wait()`
returns: `self._pending.pop(uid, None)` under the lock; a popped value is
always an `rospy.AnyMsg` (a `genpy.message.Message`), so the `isinstance`
guard passes and the buffer is returned as the synchronous response; when the
pop found nothing the guard fails and `Exception('Interrupted.')` is
raised. -/
def ROSService.rosCBFinish (st : ROSServiceState) (uid : String) :
    Except PyErr (ROSServiceState × String) :=
  let r := dpop st.pending uid
  match r.1 with
  | some resp => Except.ok ({ st with pending := r.2 }, resp)
  | none => Except.error PyErr.interrupted

/-- `_Service.callback` as inherited by `ROSService`.  The first statement
reads the never-assigned `self._msgType` (raising `AttributeError` when it is
unassigned); otherwise, after the type check, the popped deferred fires
`self._callback(msg, uid, event)`, which wraps `msg` in an `AnyMsg`, stores
it in `self._pending[uid]` under the lock, and sets the call's event. -/
def ROSService.callback (st : ROSServiceState) (msgType msg msgID : String) :
    Except PyErr (ROSServiceState × List Ev) :=
  match st.msgTypeAttr with
  | none => Except.error PyErr.attributeError
  | some mt =>
      if !(msgType == mt) then
        Except.error PyErr.typeError
      else
        let r := dpop st.responses msgID
        match r.1 with
        | some _ =>
            Except.ok ({ st with responses := r.2,
                                 pending := dinsert st.pending msgID msg,
                                 events := dinsert st.events msgID true }, [])
        | none => Except.ok ({ st with responses := r.2 }, [])

/-- `ROSService.__del__`: run `_Service.__del__` (which unregisters the
interface), shut the ROS service down, then under the lock iterate the
VALUES of `self._pending` calling `event.set()` on each, and clear
`self._pending`.  The values of `self._pending` are the `AnyMsg` reply
messages stored by `_callback` — not `Event` objects — so the loop raises
`AttributeError` on the first value when the table is nonempty, and when the
table is empty (as it is while calls are still awaiting their replies) the
loop sets nothing: the `Event` of every blocked call is left untouched. -/
def ROSService.del (st : ROSServiceState) :
    Except PyErr (ROSServiceState × List Ev) :=
  if st.pending.isEmpty then
    Except.ok ({ st with pending := [] }, [Ev.unregistered st.iTag])
  else
    Except.error PyErr.attributeError

/-! ## Concrete states used by the scenario theorems -/

/-- The concrete scenario endpoint: tag `"srv1"`, service type `"T"`,
constructed with default callback `None`. -/
def srv1 : ServiceState := Service.init "srv1" "T" PyCb.pynone

/-- `srv1` after a `call()` stored the continuation `fn 1` under the fresh
correlation id `"u1"`. -/
def srv1Called : ServiceState := { srv1 with responses := [("u1", PyCb.fn 1)] }

/-- A fresh ROS bridge endpoint with tag `"rsrv"` and service type `"RT"`. -/
def rosBase : ROSServiceState := ROSService.initState "rsrv" "RT"

/-- `rosBase` after one `_rosCB` invocation registered call `"w1"` and
blocked on its (unset) event. -/
def rosOneWaiting : ROSServiceState :=
  (ROSService.rosCBStart rosBase "q1" "w1").1

/-- `rosOneWaiting` after a second `_rosCB` invocation registered call
`"w2"`; two callers are now blocked, no reply has arrived. -/
def rosTwoWaiting : ROSServiceState :=
  (ROSService.rosCBStart rosOneWaiting "q2" "w2").1

/-! ## Claims -/

/-- C1: `call()` does generate the id, store the continuation, and send the
tagged request without waiting — but a subsequent inbound reply with the
endpoint's declared type and that correlation id does NOT invoke the
continuation: `_Service.callback` reads `self._msgType`, an attribute never
assigned on a `Service`, so the delivery raises `AttributeError` before the
table lookup, and the continuation is invoked zero times. -/
theorem Service.call_then_matching_reply_raises :
    Service.call srv1 "add23" (PyCb.fn 1) "u1"
      = Except.ok (srv1Called, [Ev.sent "srv1" "T" "add23" "u1"])
    ∧ Service.callback srv1Called "T" "sum5" "u1"
      = Except.error PyErr.attributeError :=
  ⟨rfl, rfl⟩

/-- C2: disposing the ROS bridge while two calls are blocked awaiting replies
wakes neither waiter.  `ROSService.__del__` iterates the values of
`self._pending`, but `_pending` holds only replies that already arrived
(stored by `_callback`), never the events of still-blocked calls, so with two
calls outstanding and no reply the loop runs over an empty table: both
events stay unset and both callers remain blocked, contradicting the claim
that all K waiters are woken with a cancellation failure. -/
theorem ROSService.del_leaves_waiters_blocked :
    ROSService.del rosTwoWaiting
      = Except.ok (rosTwoWaiting, [Ev.unregistered "rsrv"])
    ∧ ROSService.eventSet rosTwoWaiting "w1" = false
    ∧ ROSService.eventSet rosTwoWaiting "w2" = false :=
  ⟨rfl, rfl, rfl⟩

/-- C3: a reply whose correlation id is not pending is not silently ignored:
the very first statement of `_Service.callback` reads the never-assigned
`self._msgType`, so the delivery raises `AttributeError` (here on a fresh
endpoint whose pending table is empty, with the reply's declared type equal
to the endpoint's service type). -/
theorem Service.callback_unknown_id_raises :
    Service.callback srv1 "T" "m" "unknown" = Except.error PyErr.attributeError :=
  rfl

/-- C4: the pending-table invariant fails at the spec's own scenario: after
`call()` stored id `"u1"`, delivering the matching reply raises
`AttributeError` before the `pop`, so the reply does not consume the id —
`"u1"` is still in the table afterwards (the raise precedes any mutation,
so the post-state is `srv1Called` itself) and the continuation never ran. -/
theorem Service.reply_does_not_consume_id :
    Service.callback srv1Called "T" "sum5b" "u1"
      = Except.error PyErr.attributeError
    ∧ dget srv1Called.responses "u1" = some (PyCb.fn 1) :=
  ⟨rfl, rfl⟩

/-- C5: when the callback selected after the `None`-fallback is not callable,
`Service.call` raises `TypeError` and nothing else happens: the raise
precedes the uid draw, the table insertion and the send, so no message goes
downstream and the pending table is unchanged. -/
theorem Service.call_noncallable_rejected (st : ServiceState) (msg : String)
    (cb : PyCb) (uid : String)
    (h : pyCallable (if !(pyTruthy cb) then st.cbDefault else cb) = false) :
    Service.call st msg cb uid = Except.error PyErr.typeError := by
  unfold Service.call
  simp only [Bool.not_eq_true'] at h
  simp [h]

/-- Instance of `Service.call_noncallable_rejected`: an endpoint whose
default callback is a truthy non-callable object, called with `cb = None`. -/
theorem Service.call_noncallable_rejected_check :
    Service.call (Service.init "s" "T" (PyCb.obj true)) "m" PyCb.pynone "u"
      = Except.error PyErr.typeError :=
  Service.call_noncallable_rejected _ _ _ _ rfl

/-- C6: a downstream reply delivered before teardown does NOT fill the result
slot or signal the wait handle: delivery goes through the inherited
`_Service.callback`, whose first statement reads the never-assigned
`self._msgType` and raises `AttributeError`, so `_callback` never fires —
the slot for the blocked call `"w1"` stays empty and its event stays unset,
leaving the synchronous caller blocked instead of returning the reply. -/
theorem ROSService.reply_delivery_raises :
    ROSService.callback rosOneWaiting "RT" "resp" "w1"
      = Except.error PyErr.attributeError
    ∧ dget rosOneWaiting.pending "w1" = none
    ∧ ROSService.eventSet rosOneWaiting "w1" = false :=
  ⟨rfl, rfl, rfl⟩

/-- C7: subscriber inbound dispatch: a delivery whose declared type differs
from the endpoint's expected type raises the type error and invokes the user
callback zero times; a delivery with the matching type invokes the user
callback exactly once with the payload. -/
theorem Subscriber.callback_dispatch (st : SubscriberState)
    (msgType msg corr : String) :
    Subscriber.callback st msgType msg corr
      = if msgType = st.msgType
          then Except.ok (st, [Ev.invoked st.cb msg])
          else Except.error PyErr.typeError := by
  unfold Subscriber.callback
  by_cases h : msgType = st.msgType <;> simp [h]

/-- C8: `unsubscribe()` is idempotent: for every Connection registry —
including one where the endpoint's tag is no longer registered — the first
and the second call both return normally (no exception). -/
theorem Subscriber.unsubscribe_idempotent (registry : List (String × Nat))
    (st : SubscriberState) :
    Subscriber.unsubscribe registry st
      = Except.ok (dpop registry st.iTag).2
    ∧ Subscriber.unsubscribe (dpop registry st.iTag).2 st
      = Except.ok (dpop (dpop registry st.iTag).2 st.iTag).2 :=
  ⟨rfl, rfl⟩

/-- C9: `publish(msg)` performs exactly one downstream send carrying the
endpoint's tag, the endpoint's message type, the message, and the literal
`'nil'` no-correlation sentinel; it returns the endpoint state unchanged and
produces no other effect. -/
theorem Publisher.publish_single_send (st : PublisherState) (msg : String) :
    Publisher.publish st msg = (st, [Ev.sent st.iTag st.msgType msg "nil"]) :=
  rfl

/-- C10: `call()` with an omitted/`None` callback falls back to the default
callback given at construction, and the callable check applies to the
selected callback: with a callable default the call stores that default under
the fresh id and sends; with a non-callable (e.g. `None`) default it raises
`TypeError` before any send or table update. -/
theorem Service.call_default_fallback (st : ServiceState) (msg uid : String) :
    Service.call st msg PyCb.pynone uid
      = if pyCallable st.cbDefault
          then Except.ok
                 ({ st with responses := dinsert st.responses uid st.cbDefault },
                  [Ev.sent st.iTag st.srvType msg uid])
          else Except.error PyErr.typeError := by
  unfold Service.call
  cases h : pyCallable st.cbDefault <;> simp [pyTruthy, h]
